import Mathlib

/-!
Verification of the CredibleMe backend (FastAPI request handlers in
backend/main.py and the Gemini analysis client in backend/gemini_client.py)
against its natural-language specification.

The Python source is shallowly embedded below: pure string processing is
translated to computable Lean functions on List Char / String, the
in-memory session dictionary becomes an explicit store value threaded
through the handlers, and the external generative-text service is an
oracle parameter mapping the outgoing prompt to either a reply text or a
call failure.  Machine integers are modelled with Nat / Int (MD5 words are
Nat values reduced mod 2 ^ 32).
-/

namespace CredibleMe

/-! ### Character and list utilities -/

/-- The opening-brace character, written via its code point. -/
def lbraceC : Char := Char.ofNat 123

/-- The closing-brace character, written via its code point. -/
def rbraceC : Char := Char.ofNat 125

/-- The double-quote character. -/
def qChar : Char := Char.ofNat 34

/-- The backslash character. -/
def bslashC : Char := Char.ofNat 92

/-- The opening-bracket character. -/
def lbrackC : Char := Char.ofNat 91

/-- The closing-bracket character. -/
def rbrackC : Char := Char.ofNat 93

/-- ASCII decimal digit test (the regex class \d restricted to ASCII;
the Python patterns additionally match non-ASCII Unicode digits, which the
model output never contains and this embedding omits). -/
def isDig (c : Char) : Bool := 48 ≤ c.toNat && c.toNat ≤ 57

/-- ASCII whitespace as matched by Python's str.strip and the regex class
\s (space, tab, newline, vertical tab, form feed, carriage return);
non-ASCII Unicode whitespace is omitted from the model. -/
def pyWsChar (c : Char) : Bool :=
  c = ' ' || (9 ≤ c.toNat && c.toNat ≤ 13)

/-- Whitespace accepted between JSON tokens (the exact four characters of
RFC 8259, matching Python's json.loads). -/
def jsonWs (c : Char) : Bool :=
  c = ' ' || c.toNat = 9 || c.toNat = 10 || c.toNat = 13

/-- Drop leading JSON whitespace. -/
def skipWs : List Char → List Char
  | [] => []
  | c :: cs => if jsonWs c then skipWs cs else c :: cs

/-- Longest prefix of characters satisfying p, together with the rest. -/
def spanP (p : Char → Bool) : List Char → List Char × List Char
  | [] => ([], [])
  | c :: cs =>
    if p c then (c :: (spanP p cs).fst, (spanP p cs).snd)
    else ([], c :: cs)

/-- Does the first list occur as a prefix of the second? -/
def startsWithList : List Char → List Char → Bool
  | [], _ => true
  | _ :: _, [] => false
  | a :: as, b :: bs => a = b && startsWithList as bs

/-- Does the first list occur as a contiguous sublist of the second? -/
def containsList (needle : List Char) : List Char → Bool
  | [] => needle.isEmpty
  | c :: cs => startsWithList needle (c :: cs) || containsList needle cs

/-- Numeric value of a list of ASCII digits. -/
def digitsVal (l : List Char) : Nat :=
  l.foldl (fun a c => a * 10 + (c.toNat - 48)) 0

/-- First n characters of a string, as in a Python slice s[:n]. -/
def strTake (n : Nat) (s : String) : String := ⟨s.data.take n⟩

/-- Strip leading and trailing Python whitespace, modelling str.strip(). -/
def strip (s : String) : String :=
  ⟨((s.data.dropWhile pyWsChar).reverse.dropWhile pyWsChar).reverse⟩

/-! ### JSON values and a conservative flat parser

The primary parse tier of gemini_client._parse_response feeds the matched
brace-free fragment to Python's json.loads.  The fragment can contain no
nested object (the regex excludes inner braces), so a parser for flat
objects suffices.  The model is conservative: it accepts only integer
numbers (no floats or exponents, whose IEEE semantics are not modelled),
strings with the single-character escapes, flat arrays of scalars, and the
three literals.  Inputs it rejects that json.loads would accept are
resolved by the fallback tier in this model. -/

inductive JScalar where
  | int (n : Int)
  | str (s : String)
  | bool (b : Bool)
  | null
deriving DecidableEq, Repr

inductive JValue where
  | int (n : Int)
  | str (s : String)
  | bool (b : Bool)
  | null
  | arr (xs : List JScalar)
deriving DecidableEq, Repr

/-- Embed a scalar into the value type. -/
def JScalar.toJValue : JScalar → JValue
  | .int n => .int n
  | .str s => .str s
  | .bool b => .bool b
  | .null => .null

/-- Body of a JSON string literal after the opening quote: plain
characters and the simple escapes; \u escapes and raw control characters
are rejected (json.loads in strict mode also rejects raw controls). -/
def parseStrBody : List Char → Option (List Char × List Char)
  | [] => none
  | c :: cs =>
    if c = qChar then some ([], cs)
    else if c = bslashC then
      match cs with
      | [] => none
      | e :: cs2 =>
        let dec : Option Char :=
          if e = qChar then some qChar
          else if e = bslashC then some bslashC
          else if e = '/' then some '/'
          else if e = 'n' then some (Char.ofNat 10)
          else if e = 't' then some (Char.ofNat 9)
          else if e = 'r' then some (Char.ofNat 13)
          else if e = 'b' then some (Char.ofNat 8)
          else if e = 'f' then some (Char.ofNat 12)
          else none
        match dec with
        | none => none
        | some d =>
          match parseStrBody cs2 with
          | some (s, rest) => some (d :: s, rest)
          | none => none
    else if c.toNat < 32 then none
    else
      match parseStrBody cs with
      | some (s, rest) => some (c :: s, rest)
      | none => none

/-- A JSON integer without sign: a digit run, rejecting the leading-zero
forms that json.loads rejects. -/
def parseNatNum (l : List Char) : Option (Nat × List Char) :=
  match spanP isDig l with
  | ([], _) => none
  | ([d], rest) => some (d.toNat - 48, rest)
  | (d :: ds, rest) =>
    if d = '0' then none else some (digitsVal (d :: ds), rest)

/-- A JSON number restricted to integers (optional minus sign). -/
def parseNum (l : List Char) : Option (Int × List Char) :=
  match l with
  | [] => none
  | c :: cs =>
    if c = '-' then
      match parseNatNum cs with
      | some (n, rest) => some (-(n : Int), rest)
      | none => none
    else
      match parseNatNum l with
      | some (n, rest) => some ((n : Int), rest)
      | none => none

/-- A scalar JSON value: string, integer, true, false or null. -/
def parseScalar (l : List Char) : Option (JScalar × List Char) :=
  match l with
  | [] => none
  | c :: cs =>
    if c = qChar then
      match parseStrBody cs with
      | some (s, rest) => some (.str ⟨s⟩, rest)
      | none => none
    else if startsWithList ("true").data l then some (.bool true, l.drop 4)
    else if startsWithList ("false").data l then some (.bool false, l.drop 5)
    else if startsWithList ("null").data l then some (.null, l.drop 4)
    else
      match parseNum l with
      | some (n, rest) => some (.int n, rest)
      | none => none

/-- Elements of a flat array of scalars, after the opening bracket and any
whitespace; the fuel bounds recursion depth and exceeds the input length
at every call site. -/
def parseArrElems : Nat → List Char → Option (List JScalar × List Char)
  | 0, _ => none
  | fuel + 1, l =>
    match parseScalar l with
    | none => none
    | some (v, r) =>
      match skipWs r with
      | [] => none
      | c :: cs =>
        if c = ',' then
          match parseArrElems fuel (skipWs cs) with
          | some (vs, r2) => some (v :: vs, r2)
          | none => none
        else if c = rbrackC then some ([v], cs)
        else none

/-- A JSON value as allowed inside the matched fragment: a scalar or a
flat array of scalars (nested arrays are conservatively rejected). -/
def parseJValue (l : List Char) : Option (JValue × List Char) :=
  match l with
  | [] => none
  | c :: cs =>
    if c = lbrackC then
      match skipWs cs with
      | [] => none
      | c2 :: cs2 =>
        if c2 = rbrackC then some (.arr [], cs2)
        else
          match parseArrElems (cs.length + 1) (skipWs cs) with
          | some (vs, rest) => some (.arr vs, rest)
          | none => none
    else
      match parseScalar l with
      | some (v, rest) => some (v.toJValue, rest)
      | none => none

/-- Members of a flat JSON object, starting at a key's opening quote and
consuming the closing brace. -/
def parseMembers : Nat → List Char → Option (List (String × JValue) × List Char)
  | 0, _ => none
  | fuel + 1, l =>
    match l with
    | [] => none
    | c :: cs =>
      if c = qChar then
        match parseStrBody cs with
        | none => none
        | some (k, r1) =>
          match skipWs r1 with
          | [] => none
          | c2 :: cs2 =>
            if c2 = ':' then
              match parseJValue (skipWs cs2) with
              | none => none
              | some (v, r2) =>
                match skipWs r2 with
                | [] => none
                | c3 :: cs3 =>
                  if c3 = ',' then
                    match parseMembers fuel (skipWs cs3) with
                    | some (ms, r3) => some ((⟨k⟩, v) :: ms, r3)
                    | none => none
                  else if c3 = rbraceC then some ([(⟨k⟩, v)], cs3)
                  else none
            else none
      else none

/-- json.loads on a flat object: the whole input must be consumed apart
from surrounding whitespace. -/
def jsonLoads (l : List Char) : Option (List (String × JValue)) :=
  match skipWs l with
  | [] => none
  | c :: cs =>
    if c = lbraceC then
      match skipWs cs with
      | [] => none
      | c2 :: cs2 =>
        if c2 = rbraceC then
          if skipWs cs2 = [] then some [] else none
        else
          match parseMembers (cs.length + 1) (skipWs cs) with
          | some (ms, rest) => if skipWs rest = [] then some ms else none
          | none => none
    else none

/-- Python dict lookup on the decoded object: when json.loads sees a
duplicated key the last occurrence wins. -/
def lookupLast (k : String) : List (String × JValue) → Option JValue
  | [] => none
  | p :: rest =>
    match lookupLast k rest with
    | some v => some v
    | none => if p.fst = k then some p.snd else none

/-- dict.get with a default value. -/
def dGet (obj : List (String × JValue)) (k : String) (d : JValue) : JValue :=
  match lookupLast k obj with
  | some v => v
  | none => d

/-- Python's int() coercion as applied to decoded JSON values: identity on
integers, 1/0 on booleans, decimal parsing on strings (optional sign with
surrounding whitespace; underscore-grouped digit strings accepted by
Python are conservatively rejected), and failure on null and lists. -/
def pyIntOfStr (s : String) : Option Int :=
  let core := ((s.data.dropWhile pyWsChar).reverse.dropWhile pyWsChar).reverse
  match core with
  | [] => none
  | c :: cs =>
    let signed : Option (Bool × List Char) :=
      if c = '-' then some (true, cs)
      else if c = '+' then some (false, cs)
      else some (false, c :: cs)
    match signed with
    | none => none
    | some (neg, ds) =>
      if ds ≠ [] && ds.all isDig then
        some (if neg then -(digitsVal ds : Int) else (digitsVal ds : Int))
      else none

/-- Lift of int() to JSON values (see pyIntOfStr). -/
def pyInt : JValue → Option Int
  | .int n => some n
  | .bool b => some (if b then 1 else 0)
  | .str s => pyIntOfStr s
  | .null => none
  | .arr _ => none

/-! ### The two parse tiers of gemini_client._parse_response -/

/-- The structured result produced by the Analysis Client: the reasoning
and badge fields hold whatever JSON value the primary tier extracted (the
Python code copies dict.get results into the dictionary unchecked), while
the fallback tier always writes strings into them. -/
structure AnalysisResult where
  trust_score : Int
  reasoning : JValue
  badge : JValue
deriving DecidableEq, Repr

/-- Characters that may appear inside the primary regex match between the
braces. -/
def notBrace (c : Char) : Bool := !(c = lbraceC || c = rbraceC)

/-- The quoted key searched for by the primary regex. -/
def tsKeyChars : List Char := ("\"trust_score\"").data

/-- Leftmost match of the primary-tier pattern: an opening brace, a run of
non-brace characters containing the quoted trust_score key, and a closing
brace.  Returns the matched substring including both braces, exactly as
re.search returns it in _parse_response. -/
def primaryFind : List Char → Option (List Char)
  | [] => none
  | c :: rest =>
    if c = lbraceC then
      match spanP notBrace rest with
      | (content, d :: _) =>
        if d = rbraceC && containsList tsKeyChars content then
          some (lbraceC :: (content ++ [rbraceC]))
        else primaryFind rest
      | (_, []) => none
    else primaryFind rest

/-- The try block of _parse_response: regex search, json.loads on the
matched fragment, field extraction with defaults and int() coercion.
Except.error marks the exceptions (json decode failure, int coercion
failure) that the surrounding handler swallows; Except.ok none means the
regex found no fragment, so control falls through to the fallback tier
without an exception. -/
def tryPrimary (t : String) : Except String (Option AnalysisResult) :=
  match primaryFind t.data with
  | none => Except.ok none
  | some frag =>
    match jsonLoads frag with
    | none => Except.error "json decode error"
    | some obj =>
      match pyInt (dGet obj "trust_score" (JValue.int 75)) with
      | none => Except.error "int coercion error"
      | some n =>
        Except.ok (some
          { trust_score := n
            reasoning := dGet obj "reasoning" (JValue.str "Analysis completed")
            badge := dGet obj "badge" (JValue.str "Verified") })

/-- The unquoted key searched for by the fallback regex. -/
def fbKeyChars : List Char := ("trust_score").data

/-- Separator class of the fallback pattern: double quote, colon or
whitespace, at least one required between the key and the digits. -/
def fbSep (c : Char) : Bool := c = qChar || c = ':' || pyWsChar c

/-- Leftmost match of the fallback pattern (trust_score, one or more
separator characters, a digit run); returns the value of the greedy digit
group. -/
def fallbackScan : List Char → Option Nat
  | [] => none
  | c :: rest =>
    if startsWithList fbKeyChars (c :: rest) then
      match spanP fbSep (rest.drop 10) with
      | (seps, rest2) =>
        if seps.isEmpty then fallbackScan rest
        else
          match spanP isDig rest2 with
          | (ds, _) => if ds.isEmpty then fallbackScan rest else some (digitsVal ds)
    else fallbackScan rest

/-- The score variable of the fallback tier: the fallback regex group
when it matched, 75 otherwise. -/
def fallbackScore (t : String) : Int :=
  match fallbackScan t.data with
  | some n => (n : Int)
  | none => 75

/-- The fallback tier of _parse_response: score from the fallback regex
(default 75), reasoning from the first 500 characters of the raw reply
(default text when the reply is empty), badge derived from the score. -/
def fallbackParse (t : String) : AnalysisResult :=
  { trust_score := fallbackScore t
    reasoning := JValue.str (if t = "" then "Analysis completed" else strTake 500 t)
    badge := JValue.str (if 70 ≤ fallbackScore t then "Verified" else "Needs Review") }

/-- gemini_client._parse_response: the primary tier's result when its try
block returns one, the fallback tier's result when the regex found no
fragment or the try block raised (the exception is logged and swallowed). -/
def parse_response (t : String) : AnalysisResult :=
  match tryPrimary t with
  | Except.ok (some r) => r
  | Except.ok none => fallbackParse t
  | Except.error _ => fallbackParse t

/-! ### Prompt construction (gemini_client._build_analysis_prompt) -/

/-- Text of the prompt before the resume content. -/
def promptHead : String :=
  "\nYou are an expert credential verification analyst. Analyze the following digital credentials for consistency and trustworthiness.\n\nRESUME CONTENT:\n"

/-- Text of the prompt between the resume content and the GitHub username. -/
def promptMid1 : String := "\n\nGITHUB USERNAME:\n"

/-- Text of the prompt between the GitHub username and the LinkedIn URL. -/
def promptMid2 : String := "\n\nLINKEDIN URL:\n"

/-- Text of the prompt after the LinkedIn URL (analysis directives and the
requested JSON shape; the braces of the f-string's escaped JSON template
appear literally here). -/
def promptTail : String :=
  "\n\nPlease analyze:\n1. Consistency between resume claims and GitHub/LinkedIn profiles\n2. Credibility indicators (activity, completeness, alignment)\n3. Potential red flags or inconsistencies\n\nProvide your analysis in the following JSON format:\n\x7b\n    \"trust_score\": <number between 0-100>,\n    \"reasoning\": \"<detailed explanation of your analysis>\",\n    \"badge\": \"<Verified|Needs Review|Unverified>\"\n\x7d\n\nFocus on:\n- Matching skills/projects between resume and GitHub\n- Professional experience alignment with LinkedIn\n- Overall credibility and consistency\n"

/-- gemini_client._build_analysis_prompt: the resume text is limited to
its first 2000 characters and the three fields are interpolated into the
fixed instructional template. -/
def build_analysis_prompt (resume_text github_username linkedin_url : String) : String :=
  let resume_content :=
    if resume_text.length > 2000 then strTake 2000 resume_text else resume_text
  promptHead ++ resume_content ++ promptMid1 ++ github_username ++
    promptMid2 ++ linkedin_url ++ promptTail

/-! ### Client construction (GeminiClient.__init__) -/

/-- The constructed client state: the resolved API key. -/
structure GeminiClient where
  api_key : String
deriving DecidableEq, Repr

/-- Resolution of the credential, modelling the Python expression
api_key or os.getenv("GEMINI_API_KEY"): the explicit argument wins
unless it is absent or empty (falsy), in which case the environment value
(absent when the variable is unset) is used. -/
def resolveApiKey (api_key env_key : Option String) : Option String :=
  match api_key with
  | some s => if s = "" then env_key else some s
  | none => env_key

/-- GeminiClient.__init__: fail when the resolved key is absent or empty,
fail when the external service cannot be configured with it (the
configureOk flag models whether genai.configure and model construction
succeed), otherwise return the initialized client.  There is no branch
producing a client without a key. -/
def GeminiClient.init (api_key env_key : Option String) (configureOk : Bool) :
    Except String GeminiClient :=
  match resolveApiKey api_key env_key with
  | none =>
    Except.error "GEMINI_API_KEY not set. Please set the GEMINI_API_KEY environment variable or pass api_key to GeminiClient."
  | some s =>
    if s = "" then
      Except.error "GEMINI_API_KEY not set. Please set the GEMINI_API_KEY environment variable or pass api_key to GeminiClient."
    else if configureOk then Except.ok { api_key := s }
    else Except.error "Failed to initialize Gemini API"

/-! ### The external call (gemini_client.analyze_credentials) -/

/-- Outcome of one call to the external generative-text service. -/
inductive GeminiOutcome where
  | reply (text : String)
  | failure (msg : String)
deriving Repr

/-- gemini_client.analyze_credentials: build the prompt, invoke the
service with it (the service oracle maps the prompt to an outcome), wrap
a call failure in the RuntimeError message re-raised to the caller, and
parse a successful reply. -/
def analyze_credentials (resume_text github_username linkedin_url : String)
    (service : String → GeminiOutcome) : Except String AnalysisResult :=
  match service (build_analysis_prompt resume_text github_username linkedin_url) with
  | GeminiOutcome.failure m => Except.error ("Error calling Gemini API: " ++ m)
  | GeminiOutcome.reply t => Except.ok (parse_response t)

/-! ### MD5 (hashlib.md5) over Nat words reduced mod 2 ^ 32 -/

/-- 2 ^ 32, the word modulus. -/
def m32 : Nat := 4294967296

/-- Word addition mod 2 ^ 32. -/
def add32 (a b : Nat) : Nat := (a + b) % m32

/-- Bitwise complement within 32 bits. -/
def not32 (a : Nat) : Nat := Nat.xor a 4294967295

/-- Left rotation of a 32-bit word by n bits (0 < n < 32). -/
def rotl32 (x n : Nat) : Nat := ((x * 2 ^ n) % m32) + (x / 2 ^ (32 - n))

/-- The 64 MD5 sine-derived round constants. -/
def md5K : List Nat :=
  [0xd76aa478, 0xe8c7b756, 0x242070db, 0xc1bdceee,
   0xf57c0faf, 0x4787c62a, 0xa8304613, 0xfd469501,
   0x698098d8, 0x8b44f7af, 0xffff5bb1, 0x895cd7be,
   0x6b901122, 0xfd987193, 0xa679438e, 0x49b40821,
   0xf61e2562, 0xc040b340, 0x265e5a51, 0xe9b6c7aa,
   0xd62f105d, 0x02441453, 0xd8a1e681, 0xe7d3fbc8,
   0x21e1cde6, 0xc33707d6, 0xf4d50d87, 0x455a14ed,
   0xa9e3e905, 0xfcefa3f8, 0x676f02d9, 0x8d2a4c8a,
   0xfffa3942, 0x8771f681, 0x6d9d6122, 0xfde5380c,
   0xa4beea44, 0x4bdecfa9, 0xf6bb4b60, 0xbebfbc70,
   0x289b7ec6, 0xeaa127fa, 0xd4ef3085, 0x04881d05,
   0xd9d4d039, 0xe6db99e5, 0x1fa27cf8, 0xc4ac5665,
   0xf4292244, 0x432aff97, 0xab9423a7, 0xfc93a039,
   0x655b59c3, 0x8f0ccc92, 0xffeff47d, 0x85845dd1,
   0x6fa87e4f, 0xfe2ce6e0, 0xa3014314, 0x4e0811a1,
   0xf7537e82, 0xbd3af235, 0x2ad7d2bb, 0xeb86d391]

/-- The 64 MD5 per-round left-rotation amounts. -/
def md5S : List Nat :=
  [7, 12, 17, 22, 7, 12, 17, 22, 7, 12, 17, 22, 7, 12, 17, 22,
   5, 9, 14, 20, 5, 9, 14, 20, 5, 9, 14, 20, 5, 9, 14, 20,
   4, 11, 16, 23, 4, 11, 16, 23, 4, 11, 16, 23, 4, 11, 16, 23,
   6, 10, 15, 21, 6, 10, 15, 21, 6, 10, 15, 21, 6, 10, 15, 21]

/-- n bytes of a value in little-endian order. -/
def toLEBytes : Nat → Nat → List Nat
  | 0, _ => []
  | n + 1, v => (v % 256) :: toLEBytes n (v / 256)

/-- RFC 1321 padding: a 0x80 byte, zeros to 56 mod 64, and the bit length
as a 64-bit little-endian quantity. -/
def md5Pad (msg : List Nat) : List Nat :=
  let len := msg.length
  let k := (119 - len % 64) % 64
  msg ++ [128] ++ List.replicate k 0 ++ toLEBytes 8 ((len * 8) % 2 ^ 64)

/-- Split a byte list into 64-byte chunks (fuel bounds the recursion and
is instantiated with the list length). -/
def chunks64 : Nat → List Nat → List (List Nat)
  | 0, _ => []
  | _, [] => []
  | fuel + 1, l => l.take 64 :: chunks64 fuel (l.drop 64)

/-- The g-th little-endian 32-bit word of a 64-byte chunk. -/
def leWord (chunk : List Nat) (g : Nat) : Nat :=
  chunk.getD (4 * g) 0 + chunk.getD (4 * g + 1) 0 * 256 +
    chunk.getD (4 * g + 2) 0 * 65536 + chunk.getD (4 * g + 3) 0 * 16777216

/-- One of the 64 MD5 rounds applied to the running (A, B, C, D) state. -/
def md5Round (chunk : List Nat) (st : Nat × Nat × Nat × Nat) (i : Nat) :
    Nat × Nat × Nat × Nat :=
  match st with
  | (a, b, c, d) =>
    let fg : Nat × Nat :=
      if i < 16 then (Nat.lor (Nat.land b c) (Nat.land (not32 b) d), i)
      else if i < 32 then (Nat.lor (Nat.land d b) (Nat.land (not32 d) c), (5 * i + 1) % 16)
      else if i < 48 then (Nat.xor b (Nat.xor c d), (3 * i + 5) % 16)
      else (Nat.xor c (Nat.lor b (not32 d)), (7 * i) % 16)
    let f2 := (fg.fst + a + md5K.getD i 0 + leWord chunk fg.snd) % m32
    (d, add32 b (rotl32 f2 (md5S.getD i 0)), b, c)

/-- Process one 64-byte chunk: 64 rounds, then add the round output into
the incoming state wordwise. -/
def md5Chunk (st : Nat × Nat × Nat × Nat) (chunk : List Nat) : Nat × Nat × Nat × Nat :=
  match (List.range 64).foldl (md5Round chunk) st with
  | (a, b, c, d) =>
    (add32 st.fst a, add32 st.snd.fst b, add32 st.snd.snd.fst c, add32 st.snd.snd.snd d)

/-- Lowercase hex character for a value below 16. -/
def hexChar (n : Nat) : Char :=
  if n < 10 then Char.ofNat (48 + n) else Char.ofNat (87 + n)

/-- Two lowercase hex characters of a byte. -/
def byteHex (b : Nat) : List Char := [hexChar (b / 16), hexChar (b % 16)]

/-- hashlib.md5(bytes).hexdigest(): pad, fold the compression function
over the chunks from the standard initial state, and render the four
state words little-endian in lowercase hex. -/
def md5Hex (msg : List Nat) : String :=
  let padded := md5Pad msg
  let final := (chunks64 padded.length padded).foldl md5Chunk
    (0x67452301, 0xefcdab89, 0x98badcfe, 0x10325476)
  match final with
  | (a, b, c, d) =>
    ⟨((toLEBytes 4 a ++ toLEBytes 4 b ++ toLEBytes 4 c ++ toLEBytes 4 d).map byteHex).flatten⟩

/-- UTF-8 encoding of one code point. -/
def utf8EncodeChar (c : Char) : List Nat :=
  let n := c.toNat
  if n < 128 then [n]
  else if n < 2048 then [192 + n / 64, 128 + n % 64]
  else if n < 65536 then [224 + n / 4096, 128 + n / 64 % 64, 128 + n % 64]
  else [240 + n / 262144, 128 + n / 4096 % 64, 128 + n / 64 % 64, 128 + n % 64]

/-- str.encode(): UTF-8 bytes of a string. -/
def strBytes (s : String) : List Nat :=
  (s.data.map utf8EncodeChar).flatten

/-! ### Request handlers (backend/main.py) -/

/-- The pydantic response model of the API path. -/
structure VerifyResponse where
  trust_score : Int
  reasoning : JValue
  badge : JValue
  session_id : String
deriving DecidableEq, Repr

/-- An HTTPException raised by the API path: status code and detail. -/
structure HError where
  status : Nat
  detail : String
deriving DecidableEq, Repr

/-- Outcome of the form path: a rendered error view or a 303 redirect. -/
inductive FormOutcome where
  | errorView (msg : String)
  | redirect (url : String)
deriving DecidableEq, Repr

/-- The in-memory session_storage dictionary. -/
def Store : Type := String → Option AnalysisResult

/-- The empty session storage the process starts with. -/
def Store.empty : Store := fun _ => none

/-- Dictionary assignment session_storage[k] = v (overwriting). -/
def Store.insert (s : Store) (k : String) (v : AnalysisResult) : Store :=
  fun k2 => if k2 = k then some v else s k2

/-- Session id of the form path: first 8 hex characters of the MD5 digest
of the UTF-8 bytes of the three raw fields concatenated. -/
def sessionIdForm (resume_text github_username linkedin_url : String) : String :=
  strTake 8 (md5Hex (strBytes (resume_text ++ github_username ++ linkedin_url)))

/-- Session id of the API path, computed by the same expression over the
request's three raw fields. -/
def sessionIdApi (resume_text github_username linkedin_url : String) : String :=
  strTake 8 (md5Hex (strBytes (resume_text ++ github_username ++ linkedin_url)))

/-- main.verify_credentials_form: validate the three fields in order,
call the Analysis Client, store the result under the session id, redirect
to the result view; any exception from the client is caught and rendered
as an internal-server-error view.  Returns the outcome and the updated
session storage. -/
def verify_credentials_form (store : Store)
    (resume_text github_username linkedin_url : String)
    (service : String → GeminiOutcome) : FormOutcome × Store :=
  if strip resume_text = "" then
    (FormOutcome.errorView "Resume text is required", store)
  else if strip github_username = "" then
    (FormOutcome.errorView "GitHub username is required", store)
  else if strip linkedin_url = "" then
    (FormOutcome.errorView "LinkedIn URL is required", store)
  else
    match analyze_credentials resume_text github_username linkedin_url service with
    | Except.error e =>
      (FormOutcome.errorView ("Internal server error: " ++ e), store)
    | Except.ok result =>
      let session_id := sessionIdForm resume_text github_username linkedin_url
      (FormOutcome.redirect ("/result/" ++ session_id),
        store.insert session_id result)

/-- main.verify_credentials_api: validate the three fields in order
raising HTTP 400 on the first violation, call the Analysis Client, store
the result under the session id and return the response body; an
exception from the client becomes HTTP 500.  Returns the response or
error together with the updated session storage. -/
def verify_credentials_api (store : Store)
    (resume_text github_username linkedin_url : String)
    (service : String → GeminiOutcome) : Except HError VerifyResponse × Store :=
  if strip resume_text = "" then
    (Except.error { status := 400, detail := "Resume text is required" }, store)
  else if strip github_username = "" then
    (Except.error { status := 400, detail := "GitHub username is required" }, store)
  else if strip linkedin_url = "" then
    (Except.error { status := 400, detail := "LinkedIn URL is required" }, store)
  else
    match analyze_credentials resume_text github_username linkedin_url service with
    | Except.error e =>
      (Except.error { status := 500, detail := "Internal server error: " ++ e }, store)
    | Except.ok result =>
      let session_id := sessionIdApi resume_text github_username linkedin_url
      (Except.ok
        { trust_score := result.trust_score
          reasoning := result.reasoning
          badge := result.badge
          session_id := session_id },
        store.insert session_id result)

/-- Specification-side summary of the inlined validation sequence shared
by both handlers: the message of the first field that is empty after
stripping, in the fixed order resume_text, github_username, linkedin_url. -/
def validateErr (resume_text github_username linkedin_url : String) : Option String :=
  if strip resume_text = "" then some "Resume text is required"
  else if strip github_username = "" then some "GitHub username is required"
  else if strip linkedin_url = "" then some "LinkedIn URL is required"
  else none

/-! ### Concrete inputs used by the theorems below -/

/-- The JSON fragment of the primary-tier defaulting property. -/
def frag42 : String := "\x7b\"trust_score\": 42\x7d"

/-- The interior of frag42 between its braces. -/
def frag42Interior : List Char := ("\"trust_score\": 42").data

/-- A reply that contains frag42 but also an earlier fragment matching the
primary pattern. -/
def c5BadReply : String := "\x7b\"trust_score\": 7\x7d\x7b\"trust_score\": 42\x7d"

/-- A syntactically valid model reply whose JSON carries an empty badge
string. -/
def c1Reply : String := "\x7b\"trust_score\": 50, \"badge\": \"\"\x7d"

/-- A service oracle answering every prompt with c1Reply. -/
def c1Svc : String → GeminiOutcome := fun _ => GeminiOutcome.reply c1Reply

/-- The badge of a successful API response, none on an error response. -/
def apiBadge (x : Except HError VerifyResponse) : Option JValue :=
  match x with
  | Except.ok r => some r.badge
  | Except.error _ => none

/-- A reply resolved by the fallback tier with the default score 75. -/
def demoReplyA : String := ""

/-- A reply resolved by the fallback tier with score 42. -/
def demoReplyB : String := "trust_score: 42"

/-- Session storage after a first form-path call on the triple
("ab", "c", "d"). -/
def demoStore1 : Store :=
  (verify_credentials_form Store.empty "ab" "c" "d"
    (fun _ => GeminiOutcome.reply demoReplyA)).snd

/-- Session storage after a second API-path call on the distinct triple
("a", "bc", "d") whose concatenation coincides with the first. -/
def demoStore2 : Store :=
  (verify_credentials_api demoStore1 "a" "bc" "d"
    (fun _ => GeminiOutcome.reply demoReplyB)).snd

/-- The literal reply of the specification's walk-through scenario,
resolved by the fallback tier. -/
def scenarioReply : String := "Looks good. trust_score: 88. Strong alignment."

/-- A reply whose matched fragment is not valid JSON, so the primary
tier's json decode raises. -/
def c3ErrReply : String := "\x7b\"trust_score\": x\x7d"

/-- A service oracle answering every prompt with the plain reply ok. -/
def c1OkSvc : String → GeminiOutcome := fun _ => GeminiOutcome.reply "ok"

/-- A service oracle answering every prompt with an empty reply. -/
def nullSvc : String → GeminiOutcome := fun _ => GeminiOutcome.reply ""

/-- A resume text of 2500 identical characters. -/
def longResumeA : String := ⟨List.replicate 2500 'a'⟩

/-- A longer resume text agreeing with longResumeA on the first 2000
characters (indeed on the first 2500) while being a different string. -/
def longResumeB : String := ⟨List.replicate 2500 'a' ++ ['b']⟩

/-- Observation that client construction failed. -/
def isInitError (x : Except String GeminiClient) : Bool :=
  match x with
  | Except.error _ => true
  | Except.ok _ => false

/-! ### Helper lemmas -/

theorem spanP_cons (p : Char → Bool) (c : Char) (cs : List Char) :
    spanP p (c :: cs) =
      if p c then (c :: (spanP p cs).fst, (spanP p cs).snd) else ([], c :: cs) := rfl

theorem spanP_append_all (p : Char → Bool) (ys : List Char) :
    ∀ xs : List Char, (spanP p xs).snd = [] →
      spanP p (xs ++ ys) = ((spanP p xs).fst ++ (spanP p ys).fst, (spanP p ys).snd) := by
  intro xs
  induction xs with
  | nil => intro _; simp [spanP]
  | cons c cs ih =>
    intro h
    rw [spanP_cons] at h
    by_cases hp : p c
    · rw [if_pos hp] at h
      simp only [] at h
      rw [List.cons_append, spanP_cons, if_pos hp, ih h, spanP_cons, if_pos hp]
      simp
    · rw [if_neg hp] at h
      simp at h

theorem spanP_append_stop (p : Char → Bool) (ys : List Char) :
    ∀ xs : List Char, (spanP p xs).snd ≠ [] →
      spanP p (xs ++ ys) = ((spanP p xs).fst, (spanP p xs).snd ++ ys) := by
  intro xs
  induction xs with
  | nil => intro h; simp [spanP] at h
  | cons c cs ih =>
    intro h
    rw [spanP_cons] at h
    by_cases hp : p c
    · rw [if_pos hp] at h
      simp only [] at h
      rw [List.cons_append, spanP_cons, if_pos hp, ih h, spanP_cons, if_pos hp]
    · rw [List.cons_append, spanP_cons, if_neg hp, spanP_cons, if_neg hp]
      simp

theorem spanP_snd_nil_mem (p : Char → Bool) :
    ∀ xs : List Char, (spanP p xs).snd = [] → ∀ c ∈ xs, p c := by
  intro xs
  induction xs with
  | nil => intro _ c hc; cases hc
  | cons c cs ih =>
    intro h d hd
    rw [spanP_cons] at h
    by_cases hp : p c
    · rw [if_pos hp] at h
      simp only [] at h
      rcases hd with _ | hd
      · exact hp
      · exact ih h d (by assumption)
    · rw [if_neg hp] at h
      simp at h

theorem primaryFind_cons_ne {c : Char} (hc : ¬(c = lbraceC)) (cs : List Char) :
    primaryFind (c :: cs) = primaryFind cs := by
  simp only [primaryFind]
  rw [if_neg hc]

theorem primaryFind_of_noBrace :
    ∀ xs : List Char, (∀ c ∈ xs, notBrace c = true) → primaryFind xs = none := by
  intro xs
  induction xs with
  | nil => intro _; rfl
  | cons c cs ih =>
    intro h
    have hc : ¬(c = lbraceC) := by
      have := h c (by simp)
      intro hcl
      rw [hcl] at this
      simp [notBrace] at this
    rw [primaryFind_cons_ne hc]
    exact ih (fun d hd => h d (by simp [hd]))

theorem primaryFind_cons_brace_nil {cs : List Char}
    (h : (spanP notBrace cs).snd = []) : primaryFind (lbraceC :: cs) = none := by
  simp only [primaryFind, if_pos]
  rcases hspan : spanP notBrace cs with ⟨a, b⟩
  rw [hspan] at h
  simp only [] at h
  subst h
  simp

theorem primaryFind_cons_brace_cons {cs : List Char} {d : Char} {b : List Char}
    (h : (spanP notBrace cs).snd = d :: b) :
    primaryFind (lbraceC :: cs) =
      if d = rbraceC && containsList tsKeyChars (spanP notBrace cs).fst
      then some (lbraceC :: ((spanP notBrace cs).fst ++ [rbraceC]))
      else primaryFind cs := by
  simp only [primaryFind, if_pos]
  rcases hspan : spanP notBrace cs with ⟨a, b2⟩
  rw [hspan] at h
  simp only [] at h
  subst h
  simp

theorem frag42_data_eq : frag42.data = lbraceC :: (frag42Interior ++ [rbraceC]) := by
  decide

theorem spanP_frag42Interior : spanP notBrace frag42Interior = (frag42Interior, []) := by
  decide

theorem primaryFind_append_frag :
    ∀ xs : List Char, primaryFind xs = none → ∀ ys : List Char,
      primaryFind (xs ++ (frag42.data ++ ys)) = some frag42.data := by
  intro xs
  induction xs with
  | nil =>
    intro _ ys
    rw [List.nil_append, frag42_data_eq, List.cons_append, List.append_assoc,
      List.singleton_append]
    have hsnd : (spanP notBrace (frag42Interior ++ (rbraceC :: ys))).snd = rbraceC :: ys := by
      rw [spanP_append_all notBrace (rbraceC :: ys) frag42Interior
        (by rw [spanP_frag42Interior])]
      rw [spanP_cons, if_neg (by decide)]
    rw [primaryFind_cons_brace_cons hsnd]
    have hfst : (spanP notBrace (frag42Interior ++ (rbraceC :: ys))).fst = frag42Interior := by
      rw [spanP_append_all notBrace (rbraceC :: ys) frag42Interior
        (by rw [spanP_frag42Interior])]
      rw [spanP_cons, if_neg (by decide)]
      simp [spanP_frag42Interior]
    rw [hfst, if_pos (by decide)]
  | cons c cs ih =>
    intro h ys
    by_cases hc : c = lbraceC
    · subst hc
      rw [List.cons_append]
      rcases hb : (spanP notBrace cs).snd with _ | ⟨d, b⟩
      · -- no brace in cs at all: the span over the extended list stops at
        -- the fragment's opening brace, so the scan moves on past cs
        have hcs : primaryFind cs = none :=
          primaryFind_of_noBrace cs (spanP_snd_nil_mem notBrace cs hb)
        have hsnd : (spanP notBrace (cs ++ (frag42.data ++ ys))).snd =
            lbraceC :: ((frag42Interior ++ [rbraceC]) ++ ys) := by
          rw [spanP_append_all notBrace (frag42.data ++ ys) cs hb, frag42_data_eq,
            List.cons_append, spanP_cons, if_neg (by decide)]
        rw [primaryFind_cons_brace_cons hsnd,
          if_neg (by simp [show decide (lbraceC = rbraceC) = false from by decide]),
          ih hcs ys]
      · -- cs contains a brace: the original scan already examined this
        -- candidate and rejected it, and the extended scan rejects it for
        -- the same reason
        rw [primaryFind_cons_brace_cons hb] at h
        have hcond : ¬(d = rbraceC && containsList tsKeyChars (spanP notBrace cs).fst) = true := by
          intro hcond
          rw [if_pos hcond] at h
          cases h
        rw [if_neg hcond] at h
        have hsnd : (spanP notBrace (cs ++ (frag42.data ++ ys))).snd =
            d :: (b ++ (frag42.data ++ ys)) := by
          rw [spanP_append_stop notBrace (frag42.data ++ ys) cs (by rw [hb]; simp), hb]
          simp
        have hfst : (spanP notBrace (cs ++ (frag42.data ++ ys))).fst =
            (spanP notBrace cs).fst := by
          rw [spanP_append_stop notBrace (frag42.data ++ ys) cs (by rw [hb]; simp)]
        rw [primaryFind_cons_brace_cons hsnd, hfst, if_neg hcond, ih h ys]
    · rw [List.cons_append, primaryFind_cons_ne hc]
      rw [primaryFind_cons_ne hc] at h
      exact ih h ys

theorem parse_response_primary {t : String} {r : AnalysisResult}
    (h : tryPrimary t = Except.ok (some r)) : parse_response t = r := by
  unfold parse_response
  rw [h]

theorem parse_response_fallback {t : String}
    (h : tryPrimary t = Except.ok none ∨ ∃ e, tryPrimary t = Except.error e) :
    parse_response t = fallbackParse t := by
  unfold parse_response
  rcases h with h | ⟨e, h⟩ <;> rw [h]

theorem fallbackParse_badge_cases (t : String) :
    (fallbackParse t).badge = JValue.str "Verified" ∨
      (fallbackParse t).badge = JValue.str "Needs Review" := by
  unfold fallbackParse
  by_cases h70 : (70 : Int) ≤ fallbackScore t
  · left; simp [h70]
  · right; simp [h70]

theorem fallbackParse_badge_iff (t : String) :
    (fallbackParse t).badge = JValue.str "Verified" ↔ 70 ≤ (fallbackParse t).trust_score := by
  unfold fallbackParse
  by_cases h70 : (70 : Int) ≤ fallbackScore t
  · simp [h70]
  · simp only [if_neg h70]
    constructor
    · intro h
      simp only [JValue.str.injEq] at h
      exact absurd h (by decide)
    · intro h
      exact absurd h h70

theorem strTake_trunc (s : String) :
    (if s.length > 2000 then strTake 2000 s else s) = strTake 2000 s := by
  split
  · rfl
  · next h =>
    push_neg at h
    unfold strTake
    cases s with
    | mk data =>
      exact congrArg String.mk (List.take_of_length_le h).symm

/-! ### Claim theorems -/

/-- C1 counterexample: on the valid triple (r, g, l) the API handler,
fed a reply whose JSON fragment carries an empty badge string, succeeds
and returns that empty badge, which is none of the three enum values —
refuting the claim that every successful call returns a non-empty badge
drawn from the three-value enum. -/
theorem C1_counterexample :
    validateErr "r" "g" "l" = none
    ∧ apiBadge (verify_credentials_api Store.empty "r" "g" "l" c1Svc).fst
        = some (JValue.str "")
    ∧ ¬(JValue.str "" = JValue.str "Verified")
    ∧ ¬(JValue.str "" = JValue.str "Needs Review")
    ∧ ¬(JValue.str "" = JValue.str "Unverified") := by
  decide

/-- C1 (amended): for every valid input triple the API handler either
fails with exactly one classified error (HTTP 500 carrying the service
failure, with the store untouched) or succeeds with the parsed result and
the session id — never both, the two outcomes being distinct constructors
— and whenever the reply is resolved by the fallback tier the badge is
Verified or Needs Review; a primary-tier badge is copied verbatim from
the model's JSON and may lie outside the enum. -/
theorem C1_valid_input_outcomes (store : Store) (r g l : String)
    (svc : String → GeminiOutcome)
    (hr : ¬(strip r = "")) (hg : ¬(strip g = "")) (hl : ¬(strip l = "")) :
    (∀ m, svc (build_analysis_prompt r g l) = GeminiOutcome.failure m →
      verify_credentials_api store r g l svc =
        (Except.error
          { status := 500
            detail := "Internal server error: " ++ ("Error calling Gemini API: " ++ m) },
         store))
    ∧ (∀ t, svc (build_analysis_prompt r g l) = GeminiOutcome.reply t →
      (verify_credentials_api store r g l svc).fst = Except.ok
        { trust_score := (parse_response t).trust_score
          reasoning := (parse_response t).reasoning
          badge := (parse_response t).badge
          session_id := sessionIdApi r g l }
      ∧ ((tryPrimary t = Except.ok none ∨ ∃ e, tryPrimary t = Except.error e) →
        (parse_response t).badge = JValue.str "Verified"
          ∨ (parse_response t).badge = JValue.str "Needs Review")) := by
  constructor
  · intro m hm
    simp [verify_credentials_api, analyze_credentials, hr, hg, hl, hm]
  · intro t ht
    constructor
    · simp [verify_credentials_api, analyze_credentials, hr, hg, hl, ht]
    · intro hfb
      rw [parse_response_fallback hfb]
      exact fallbackParse_badge_cases t

/-- C1 witness: instantiation of the amended theorem on the valid triple
(r, g, l) with a service answering the plain reply ok. -/
theorem C1_valid_input_outcomes_witness :
    (verify_credentials_api Store.empty "r" "g" "l" c1OkSvc).fst = Except.ok
      { trust_score := (parse_response "ok").trust_score
        reasoning := (parse_response "ok").reasoning
        badge := (parse_response "ok").badge
        session_id := sessionIdApi "r" "g" "l" } :=
  ((C1_valid_input_outcomes Store.empty "r" "g" "l" c1OkSvc
    (by decide) (by decide) (by decide)).2 "ok" rfl).1

/-- C2: whenever the reply is resolved by the fallback tier (the primary
tier found no fragment or its try block raised), the badge is Verified
exactly when the extracted-or-defaulted score is at least 70, is never
Unverified, and is always one of Verified and Needs Review. -/
theorem C2_fallback_badge_law (t : String)
    (h : tryPrimary t = Except.ok none ∨ ∃ e, tryPrimary t = Except.error e) :
    ((parse_response t).badge = JValue.str "Verified"
      ↔ 70 ≤ (parse_response t).trust_score)
    ∧ ¬((parse_response t).badge = JValue.str "Unverified")
    ∧ ((parse_response t).badge = JValue.str "Verified"
      ∨ (parse_response t).badge = JValue.str "Needs Review") := by
  rw [parse_response_fallback h]
  refine ⟨fallbackParse_badge_iff t, ?_, fallbackParse_badge_cases t⟩
  rcases fallbackParse_badge_cases t with hb | hb <;> rw [hb] <;> decide

/-- C2 witness: the fallback badge law at the specification's scenario
reply, which carries no JSON braces and the embedded score 88. -/
theorem C2_fallback_badge_law_witness :
    ((parse_response scenarioReply).badge = JValue.str "Verified"
      ↔ 70 ≤ (parse_response scenarioReply).trust_score)
    ∧ ¬((parse_response scenarioReply).badge = JValue.str "Unverified")
    ∧ ((parse_response scenarioReply).badge = JValue.str "Verified"
      ∨ (parse_response scenarioReply).badge = JValue.str "Needs Review") :=
  C2_fallback_badge_law scenarioReply (Or.inl rfl)

/-- C3: for every reply text the parse function totally resolves to a
structured result: the primary tier's result when its try block returns
one, and the fallback tier's result both when no fragment was found and
when the try block raised (the exception is swallowed, never re-raised to
the caller). -/
theorem C3_parse_never_raises (t : String) :
    (∀ r, tryPrimary t = Except.ok (some r) → parse_response t = r)
    ∧ (tryPrimary t = Except.ok none → parse_response t = fallbackParse t)
    ∧ (∀ e, tryPrimary t = Except.error e → parse_response t = fallbackParse t) :=
  ⟨fun _ h => parse_response_primary h,
   fun h => parse_response_fallback (Or.inl h),
   fun e h => parse_response_fallback (Or.inr ⟨e, h⟩)⟩

/-- C3 witness: on a reply whose fragment is invalid JSON, the primary
tier raises a decode error and the parse still returns the fallback
result. -/
theorem C3_parse_never_raises_witness :
    parse_response c3ErrReply = fallbackParse c3ErrReply :=
  (C3_parse_never_raises c3ErrReply).2.2 "json decode error" rfl

/-- C4: the session id is the same pure function of the raw triple on the
form path and the API path, namely the first 8 hex characters of the MD5
digest of the UTF-8 bytes of the three fields concatenated; determinism
is immediate since it is a function of exactly these three values. -/
theorem C4_session_id_deterministic (a b c : String) :
    sessionIdForm a b c = sessionIdApi a b c
    ∧ sessionIdApi a b c = strTake 8 (md5Hex (strBytes (a ++ b ++ c))) :=
  ⟨rfl, rfl⟩

/-- C5 counterexample: a reply containing the fragment with trust_score
42 (and no other keys) preceded by an earlier fragment with trust_score 7
parses to 7, not 42 — refuting the claim for arbitrary replies containing
the fragment. -/
theorem C5_counterexample :
    containsList frag42.data c5BadReply.data = true
    ∧ (parse_response c5BadReply).trust_score = 7
    ∧ ¬((parse_response c5BadReply).trust_score = 42) := by
  decide

/-- C5 (amended): for every reply in which the trust_score-42 fragment is
preceded only by text containing no primary-pattern match of its own (in
particular the reply equal to the fragment itself), the primary tier
fires and produces exactly score 42 with the defaulted reasoning
Analysis completed and badge Verified. -/
theorem C5_primary_defaulting (pre post : String)
    (h : primaryFind pre.data = none) :
    parse_response (pre ++ frag42 ++ post) =
      { trust_score := 42
        reasoning := JValue.str "Analysis completed"
        badge := JValue.str "Verified" } := by
  have hdata : (pre ++ frag42 ++ post).data = pre.data ++ (frag42.data ++ post.data) := by
    rw [String.data_append, String.data_append, List.append_assoc]
  have hfind : primaryFind ((pre ++ frag42 ++ post)).data = some frag42.data := by
    rw [hdata]
    exact primaryFind_append_frag pre.data h post.data
  have htry : tryPrimary (pre ++ frag42 ++ post) = Except.ok (some
      { trust_score := 42
        reasoning := JValue.str "Analysis completed"
        badge := JValue.str "Verified" }) := by
    unfold tryPrimary
    rw [hfind]
    rfl
  exact parse_response_primary htry

/-- C5 witness: the amended theorem at the reply consisting of exactly
the fragment. -/
theorem C5_primary_defaulting_witness :
    parse_response ("" ++ frag42 ++ "") =
      { trust_score := 42
        reasoning := JValue.str "Analysis completed"
        badge := JValue.str "Verified" } :=
  C5_primary_defaulting "" "" rfl

/-- C6: when validation fails, both handlers stop at the reported
message — the API path with HTTP 400, the form path with the error view —
for every service oracle (so the Analysis Client is never consulted), and
the returned session storage is exactly the incoming one (nothing is
stored). -/
theorem C6_validation_short_circuits (store : Store) (r g l : String)
    (svc : String → GeminiOutcome) (m : String)
    (h : validateErr r g l = some m) :
    verify_credentials_api store r g l svc =
      (Except.error { status := 400, detail := m }, store)
    ∧ verify_credentials_form store r g l svc = (FormOutcome.errorView m, store) := by
  unfold validateErr at h
  split_ifs at h with h1 h2 h3
  · obtain rfl := Option.some.inj h
    exact ⟨by simp [verify_credentials_api, h1],
           by simp [verify_credentials_form, h1]⟩
  · obtain rfl := Option.some.inj h
    exact ⟨by simp [verify_credentials_api, h1, h2],
           by simp [verify_credentials_form, h1, h2]⟩
  · obtain rfl := Option.some.inj h
    exact ⟨by simp [verify_credentials_api, h1, h2, h3],
           by simp [verify_credentials_form, h1, h2, h3]⟩

/-- C6 witness: the short-circuit at an empty resume field with an
arbitrary service oracle. -/
theorem C6_validation_short_circuits_witness :
    verify_credentials_api Store.empty "" "g" "l" nullSvc =
      (Except.error { status := 400, detail := "Resume text is required" }, Store.empty)
    ∧ verify_credentials_form Store.empty "" "g" "l" nullSvc =
      (FormOutcome.errorView "Resume text is required", Store.empty) :=
  C6_validation_short_circuits Store.empty "" "g" "l" nullSvc
    "Resume text is required" (by decide)

/-- C7: validation examines the fields in the fixed order resume_text,
github_username, linkedin_url and reports only the first violation: an
empty resume yields the resume message whatever the other fields hold (in
particular when all three are empty), and the later messages require all
earlier fields to be non-empty after stripping. -/
theorem C7_validation_order (store : Store) (r g l : String)
    (svc : String → GeminiOutcome) :
    (strip r = "" →
      verify_credentials_api store r g l svc =
        (Except.error { status := 400, detail := "Resume text is required" }, store)
      ∧ verify_credentials_form store r g l svc =
        (FormOutcome.errorView "Resume text is required", store))
    ∧ (¬(strip r = "") → strip g = "" →
      verify_credentials_api store r g l svc =
        (Except.error { status := 400, detail := "GitHub username is required" }, store)
      ∧ verify_credentials_form store r g l svc =
        (FormOutcome.errorView "GitHub username is required", store))
    ∧ (¬(strip r = "") → ¬(strip g = "") → strip l = "" →
      verify_credentials_api store r g l svc =
        (Except.error { status := 400, detail := "LinkedIn URL is required" }, store)
      ∧ verify_credentials_form store r g l svc =
        (FormOutcome.errorView "LinkedIn URL is required", store)) := by
  refine ⟨fun h1 => ⟨?_, ?_⟩, fun h1 h2 => ⟨?_, ?_⟩, fun h1 h2 h3 => ⟨?_, ?_⟩⟩ <;>
    simp [verify_credentials_api, verify_credentials_form, *]

/-- C7 witness: with all three fields empty the reported error is exactly
the resume message. -/
theorem C7_validation_order_witness :
    verify_credentials_api Store.empty "" "" "" nullSvc =
      (Except.error { status := 400, detail := "Resume text is required" }, Store.empty)
    ∧ verify_credentials_form Store.empty "" "" "" nullSvc =
      (FormOutcome.errorView "Resume text is required", Store.empty) :=
  (C7_validation_order Store.empty "" "" "" nullSvc).1 (by decide)

/-- C8: the prompt embeds the resume text truncated to its first 2000
characters into the fixed template with no other normalization, so two
resume texts agreeing on their first 2000 characters produce the
identical prompt for equal values of the other two fields. -/
theorem C8_prompt_truncation (r r2 g l : String)
    (h : strTake 2000 r = strTake 2000 r2) :
    build_analysis_prompt r g l =
      promptHead ++ strTake 2000 r ++ promptMid1 ++ g ++ promptMid2 ++ l ++ promptTail
    ∧ build_analysis_prompt r g l = build_analysis_prompt r2 g l := by
  have e1 : ∀ s : String, build_analysis_prompt s g l =
      promptHead ++ strTake 2000 s ++ promptMid1 ++ g ++ promptMid2 ++ l ++ promptTail := by
    intro s
    simp only [build_analysis_prompt, strTake_trunc]
  exact ⟨e1 r, by rw [e1 r, e1 r2, h]⟩

/-- C8 witness: two resume texts of length 2500 and 2501 agreeing on
their first 2000 characters produce the identical prompt. -/
theorem C8_prompt_truncation_witness :
    build_analysis_prompt longResumeA "g" "l" = build_analysis_prompt longResumeB "g" "l" := by
  have htake : strTake 2000 longResumeA = strTake 2000 longResumeB := by
    unfold strTake longResumeA longResumeB
    exact congrArg String.mk
      (List.take_append_of_le_length (by rw [List.length_replicate]; norm_num)).symm
  exact (C8_prompt_truncation longResumeA longResumeB "g" "l" htake).2

/-- C9: client construction fails when the resolved credential is absent
or empty, fails when the external service cannot be configured, and
succeeds only with a non-empty resolved key, which the constructed client
then carries — there is no fallback or mock branch. -/
theorem C9_client_init_fails_fast (api_key env_key : Option String) (configureOk : Bool) :
    ((resolveApiKey api_key env_key = none ∨ resolveApiKey api_key env_key = some "") →
      isInitError (GeminiClient.init api_key env_key configureOk) = true)
    ∧ (configureOk = false →
      isInitError (GeminiClient.init api_key env_key configureOk) = true)
    ∧ (∀ k, resolveApiKey api_key env_key = some k → ¬(k = "") → configureOk = true →
      GeminiClient.init api_key env_key configureOk = Except.ok { api_key := k }) := by
  refine ⟨?_, ?_, ?_⟩
  · intro h
    rcases h with h | h <;> simp [GeminiClient.init, isInitError, h]
  · intro hco
    subst hco
    rcases hk : resolveApiKey api_key env_key with _ | k
    · simp [GeminiClient.init, isInitError, hk]
    · by_cases hke : k = "" <;> simp [GeminiClient.init, isInitError, hk, hke]
  · intro k hk hke hco
    subst hco
    simp [GeminiClient.init, hk, hke]

/-- C9 witness: construction with no explicit key and no environment
value is an error even when the service itself could be configured. -/
theorem C9_client_init_fails_fast_witness :
    isInitError (GeminiClient.init none none true) = true :=
  (C9_client_init_fails_fast none none true).1 (Or.inl rfl)

set_option maxRecDepth 20000 in
/-- C10: the distinct valid triples (ab, c, d) and (a, bc, d) concatenate
to the same string, receive the identical session id, and a later call
with the second triple overwrites the first triple's stored result at
that id. -/
theorem C10_collision_overwrite :
    ¬((("ab", "c", "d") : String × String × String) = ("a", "bc", "d"))
    ∧ sessionIdForm "ab" "c" "d" = sessionIdApi "a" "bc" "d"
    ∧ demoStore1 (sessionIdForm "ab" "c" "d") = some (parse_response demoReplyA)
    ∧ demoStore2 (sessionIdForm "ab" "c" "d") = some (parse_response demoReplyB)
    ∧ ¬(parse_response demoReplyA = parse_response demoReplyB) := by
  decide

end CredibleMe
